import Mathlib

/-!
Verification of the Toggl-to-GitLab time-entry reconciliation engine.

The definitions below are a shallow embedding of the repository's core logic:

* `extract_ticket_info` embeds `TogglClient.extract_ticket_info`
  (toggl_client.py).  Each of the nine regular-expression rules of the source
  is hand-compiled into a deterministic matcher; the character classes model
  the ASCII fragment of Python's `re` classes (`\d`, `\w`, `\s`, `[A-Z]` with
  `re.IGNORECASE`), which is the fragment exercised by the program's inputs.
* `round_time` embeds `TogglClient.round_time`; Python's float `round` is
  modelled by exact round-half-to-even on the rational
  `duration / (round_to_minutes * 60)`, which agrees with the float
  computation for all realistic (sub-astronomical) durations.
* `filter_by_weekdays` embeds `TogglClient.filter_by_weekdays`, with the
  external `datetime.fromisoformat` parser abstracted as a parameter and
  CPython's `date.weekday` (Monday = 0) embedded via `toordinal`.
* `syncTicketEntries` / `syncEntriesToIssue` embed
  `SyncService._sync_ticket_entries` and `SyncService._sync_entries_to_issue`
  (sync_service.py).  The GitLab side is the external collaborator of the
  spec's section 6 and is modelled by an environment record of its responses;
  every mutating collaborator call the service issues is recorded in a trace.
-/

namespace SyncToggl

/-! ### ASCII character classes of Python's `re` module -/

/-- Python regex `\d` (ASCII fragment). -/
def isPyDigit (c : Char) : Bool := decide ('0' ≤ c ∧ c ≤ '9')

/-- Python regex `[A-Z]` under `re.IGNORECASE` (ASCII fragment). -/
def isPyAlpha (c : Char) : Bool :=
  decide (('A' ≤ c ∧ c ≤ 'Z') ∨ ('a' ≤ c ∧ c ≤ 'z'))

/-- Python regex `\w` (ASCII fragment). -/
def isPyWord (c : Char) : Bool := isPyAlpha c || isPyDigit c || c = '_'

/-- Python regex `\s` / `str.strip` whitespace (ASCII fragment). -/
def isPySpace (c : Char) : Bool :=
  decide (c = ' ' ∨ c = '\t' ∨ c = '\n' ∨ c = '\r' ∨ c = '\x0b' ∨ c = '\x0c')

/-- `str.strip()` on a character list. -/
def pyStripL (cs : List Char) : List Char :=
  ((cs.dropWhile isPySpace).reverse.dropWhile isPySpace).reverse

/-- `str.strip()`. -/
def pyStrip (s : String) : String := String.mk (pyStripL s.data)

/-- `str.lower()` (ASCII fragment). -/
def pyLower (s : String) : String := String.mk (s.data.map Char.toLower)

/-- Python's substring test `needle in hay` on character lists. -/
def containsSub (needle : List Char) : List Char → Bool
  | [] => needle.isEmpty
  | c :: rest => needle.isPrefixOf (c :: rest) || containsSub needle rest

/-! ### Ticket identifier parser (`TogglClient.extract_ticket_info`)

Each `matchPn` compiles the n-th regex of the source's ordered `patterns`
list.  All nine patterns are deterministic under `re.match` backtracking:
every greedy run (`\d+`, `[A-Z]+`, `\w+`, `\s*`) is followed either by a
sub-pattern that matches anything, or by a required character that can never
occur inside the run, so the maximal-munch reading is exact. -/

/-- Case-insensitive literal match (the literal is given lowercase);
returns the remainder on success. -/
def matchLitCI : List Char → List Char → Option (List Char)
  | [], cs => some cs
  | _ :: _, [] => none
  | l :: ls, c :: cs => if c.toLower = l then matchLitCI ls cs else none

/-- Trailing `\s*(.*)` of every pattern: skip whitespace, capture up to the
next newline (`.` does not match `\n` without `re.DOTALL`). -/
def tailGroup (cs : List Char) : List Char :=
  (cs.dropWhile isPySpace).takeWhile (fun c => c ≠ '\n')

/-- Greedy `:?`. -/
def optColon : List Char → List Char
  | ':' :: rest => rest
  | cs => cs

/-- Rule 1: `kazoo#(\d+)\s*(.*)`. -/
def matchP1 (cs : List Char) : Option (List Char × List Char) :=
  match matchLitCI "kazoo#".data cs with
  | none => none
  | some rest =>
    let d := rest.takeWhile isPyDigit
    if d = [] then none
    else some (d, tailGroup (rest.dropWhile isPyDigit))

/-- Rule 2: `#(\d+):?\s*(.*)`. -/
def matchP2 : List Char → Option (List Char × List Char)
  | '#' :: rest =>
    let d := rest.takeWhile isPyDigit
    if d = [] then none
    else some (d, tailGroup (optColon (rest.dropWhile isPyDigit)))
  | _ => none

/-- Rule 3: `([A-Z]+-\d+):?\s*(.*)` (IGNORECASE). -/
def matchP3 (cs : List Char) : Option (List Char × List Char) :=
  let l := cs.takeWhile isPyAlpha
  if l = [] then none
  else
    match cs.dropWhile isPyAlpha with
    | '-' :: rest =>
      let d := rest.takeWhile isPyDigit
      if d = [] then none
      else some (l ++ '-' :: d, tailGroup (optColon (rest.dropWhile isPyDigit)))
    | _ => none

/-- Rule 4: `Issue\s+#(\d+):?\s*(.*)` (IGNORECASE). -/
def matchP4 (cs : List Char) : Option (List Char × List Char) :=
  match matchLitCI "issue".data cs with
  | none => none
  | some rest =>
    if rest.takeWhile isPySpace = [] then none
    else
      match rest.dropWhile isPySpace with
      | '#' :: rest2 =>
        let d := rest2.takeWhile isPyDigit
        if d = [] then none
        else some (d, tailGroup (optColon (rest2.dropWhile isPyDigit)))
      | _ => none

/-- Rule 5: `\[([A-Z]+-\d+)\]\s*(.*)` (IGNORECASE). -/
def matchP5 : List Char → Option (List Char × List Char)
  | '[' :: cs =>
    let l := cs.takeWhile isPyAlpha
    if l = [] then none
    else
      match cs.dropWhile isPyAlpha with
      | '-' :: rest =>
        let d := rest.takeWhile isPyDigit
        if d = [] then none
        else
          match rest.dropWhile isPyDigit with
          | ']' :: rest2 => some (l ++ '-' :: d, tailGroup rest2)
          | _ => none
      | _ => none
  | _ => none

/-- Rule 6: `\(([A-Z]+-\d+)\)\s*(.*)` (IGNORECASE). -/
def matchP6 : List Char → Option (List Char × List Char)
  | '(' :: cs =>
    let l := cs.takeWhile isPyAlpha
    if l = [] then none
    else
      match cs.dropWhile isPyAlpha with
      | '-' :: rest =>
        let d := rest.takeWhile isPyDigit
        if d = [] then none
        else
          match rest.dropWhile isPyDigit with
          | ')' :: rest2 => some (l ++ '-' :: d, tailGroup rest2)
          | _ => none
      | _ => none
  | _ => none

/-- Rule 7: `(\w+-\d+)\s*[-:]\s*(.*)`. -/
def matchP7 (cs : List Char) : Option (List Char × List Char) :=
  let w := cs.takeWhile isPyWord
  if w = [] then none
  else
    match cs.dropWhile isPyWord with
    | '-' :: rest =>
      let d := rest.takeWhile isPyDigit
      if d = [] then none
      else
        match (rest.dropWhile isPyDigit).dropWhile isPySpace with
        | c :: rest2 =>
          if c = '-' ∨ c = ':' then some (w ++ '-' :: d, tailGroup rest2)
          else none
        | [] => none
    | _ => none

/-- Rule 8: `([A-Z]{2,}-\d+)\b\s*(.*)` (IGNORECASE). -/
def matchP8 (cs : List Char) : Option (List Char × List Char) :=
  let l := cs.takeWhile isPyAlpha
  if l.length < 2 then none
  else
    match cs.dropWhile isPyAlpha with
    | '-' :: rest =>
      let d := rest.takeWhile isPyDigit
      if d = [] then none
      else
        match rest.dropWhile isPyDigit with
        | [] => some (l ++ '-' :: d, tailGroup [])
        | c :: rest2 =>
          if isPyWord c then none
          else some (l ++ '-' :: d, tailGroup (c :: rest2))
    | _ => none

/-- Rule 9: `(\d+):\s*(.*)`. -/
def matchP9 (cs : List Char) : Option (List Char × List Char) :=
  let d := cs.takeWhile isPyDigit
  if d = [] then none
  else
    match cs.dropWhile isPyDigit with
    | ':' :: rest => some (d, tailGroup rest)
    | _ => none

/-- The source's ordered `patterns` list. -/
def ticketPatterns : List (List Char → Option (List Char × List Char)) :=
  [matchP1, matchP2, matchP3, matchP4, matchP5, matchP6, matchP7, matchP8,
   matchP9]

/-- `re.match` over the ordered rule list: the first rule that matches wins. -/
def firstMatch : List (List Char → Option (List Char × List Char)) →
    List Char → Option (List Char × List Char)
  | [], _ => none
  | p :: ps, cs =>
    match p cs with
    | some r => some r
    | none => firstMatch ps cs

/-- Result construction after a rule matched: group 2 is stripped when
non-empty, otherwise the full original description is used; a whitespace-only
group 2 also falls back to the original description (`ticket_name or
description`). -/
def mkTicketResult (description : String) (g1 g2 : List Char) :
    Option String × Option String :=
  let name0 : String :=
    if g2 = [] then description else String.mk (pyStripL g2)
  (some (String.mk g1), some (if name0 = "" then description else name0))

/-- `TogglClient.extract_ticket_info`: `(ticket_id, ticket_name)`.  A falsy
(empty) description short-circuits to `(None, None)`; otherwise the rules run
against the stripped description. -/
def extract_ticket_info (description : String) :
    Option String × Option String :=
  if description = "" then (none, none)
  else
    match firstMatch ticketPatterns (pyStripL description.data) with
    | some (g1, g2) => mkTicketResult description g1 g2
    | none => (none, some description)

/-! ### Duration rounding (`TogglClient.round_time`) -/

/-- Python `round(d / rts)` for `rts > 0`, computed exactly:
round-half-to-even of the rational `d / rts`.  (`/` and `%` below are
`Int.ediv`/`Int.emod`, which agree with Python's floor division for a
positive divisor; Python's intermediate float is exact on ties and cannot
cross a tie boundary for any realistic duration.) -/
def pyRound (d rts : Int) : Int :=
  if 2 * (d % rts) < rts then d / rts
  else if rts < 2 * (d % rts) then d / rts + 1
  else if (d / rts) % 2 = 0 then d / rts else d / rts + 1

/-- `TogglClient.round_time`: round to the nearest multiple of
`round_to_minutes * 60` seconds, clamping a zero result up to one unit when
the original duration was positive. -/
def round_time (duration_seconds : Int) (round_to_minutes : Int) : Int :=
  if round_to_minutes ≤ 0 then duration_seconds
  else
    if pyRound duration_seconds (round_to_minutes * 60) * (round_to_minutes * 60) = 0
        ∧ 0 < duration_seconds
    then round_to_minutes * 60
    else pyRound duration_seconds (round_to_minutes * 60) * (round_to_minutes * 60)

/-- `m` is the multiple of `rts` nearest to `d`, ties broken to the even
multiple (the value Python's `round(d / rts) * rts` produces). -/
def isNearestMultipleHE (rts d m : Int) : Prop :=
  rts ∣ m ∧ (2 * |d - m| < rts ∨ (2 * |d - m| = rts ∧ 2 ∣ m / rts))

/-! ### Weekday filtering (`TogglClient.filter_by_weekdays`) -/

/-- A parsed calendar date, as recovered by `datetime.fromisoformat`. -/
structure PyDate where
  year : Nat
  month : Nat
  day : Nat
deriving DecidableEq, Repr

/-- `y` is a Gregorian leap year (CPython `calendar.isleap`). -/
def isLeapYear (y : Nat) : Bool :=
  decide (y % 4 = 0 ∧ (y % 100 ≠ 0 ∨ y % 400 = 0))

/-- Days in the months strictly before month `m` (CPython `_days_before_month`). -/
def daysBeforeMonth (leap : Bool) (m : Nat) : Nat :=
  (match m with
   | 1 => 0 | 2 => 31 | 3 => 59 | 4 => 90 | 5 => 120 | 6 => 151 | 7 => 181
   | 8 => 212 | 9 => 243 | 10 => 273 | 11 => 304 | 12 => 334 | _ => 0)
  + (if leap ∧ 3 ≤ m then 1 else 0)

/-- CPython `date.toordinal`: proleptic Gregorian ordinal, day 1 = 0001-01-01. -/
def toordinal (dt : PyDate) : Nat :=
  365 * (dt.year - 1) + (dt.year - 1) / 4 - (dt.year - 1) / 100
    + (dt.year - 1) / 400 + daysBeforeMonth (isLeapYear dt.year) dt.month
    + dt.day

/-- CPython `date.weekday`: Monday = 0 … Sunday = 6. -/
def weekday (dt : PyDate) : Nat := (toordinal dt + 6) % 7

/-! ### Data model of the sync service -/

/-- A processed time entry as handed to the reconciler
(`TogglClient.process_time_entries` output).  `id` is `str(entry['id'])`,
the string form the service uses for the dedup marker. -/
structure Entry where
  id : String
  description : String
  start : String
  duration : Int
  original_duration : Int
  billable : Bool
  tags : List String
deriving DecidableEq, Repr

/-- The service's `self.stats` accumulator. -/
structure Stats where
  processed_entries : Nat
  synced_entries : Nat
  created_issues : Nat
  errors : Nat
  skipped_entries : Nat
  time_estimates_added : Nat
  total_time_synced : Int
  billable_time_synced : Int
deriving DecidableEq, Repr

/-- The all-zero statistics a run starts from. -/
def Stats.init : Stats := ⟨0, 0, 0, 0, 0, 0, 0, 0⟩

/-- The configuration surface the reconciler consumes (`config.py`). -/
structure SyncConfig where
  dry_run : Bool
  prevent_duplicates : Bool
  auto_create_issues : Bool
  add_time_estimates : Bool
  estimate_multiplier : ℚ
  min_description_length : Nat
  skip_generic_terms : List String
deriving Repr

/-- A resolved GitLab issue, as much of it as the reconciler consumes. -/
structure Issue where
  iid : Nat
deriving DecidableEq, Repr

/-- Responses of the external collaborators (GitLab client and the `datetime`
library) during one group's reconciliation.  `getEntriesResult = none` models
an exception while fetching existing time-tracking entries; each element of a
`some` result is the `summary` text of one recorded entry. -/
structure Env where
  parseStart : String → Option PyDate
  getEntriesResult : Option (List String)
  addTimeResult : Entry → Bool
  currentEstimate : Int
  setEstimateResult : Bool
  findIssue : String → Option Issue
  createIssueResult : Option Issue

/-- A mutating collaborator call issued by the service. -/
inductive MutCall where
  | createIssue (title : String)
  | addTimeSpent (iid : Nat) (duration : Int) (date : PyDate) (description : String)
  | setTimeEstimate (iid : Nat) (seconds : Int)
  | addNoteToIssue (iid : Nat) (note : String)
deriving DecidableEq, Repr

/-! ### `TogglClient.filter_by_weekdays` -/

/-- `TogglClient.filter_by_weekdays`: when weekend exclusion is on, keep the
entries whose parsed start weekday is Monday–Friday (`weekday < 5`); a start
timestamp that fails to parse raises, is caught, and the entry is kept. -/
def filter_by_weekdays (parse : String → Option PyDate) (entries : List Entry)
    (exclude_weekends : Bool) : List Entry :=
  if !exclude_weekends then entries
  else
    entries.filter fun e =>
      match parse e.start with
      | some dt => decide (weekday dt < 5)
      | none => true

/-! ### Dedup-marker recovery (`re.search(r'\[TogglID:(\d+)\]', summary)`) -/

/-- The literal head of the dedup marker. -/
def markerLit : List Char := "[TogglID:".data

/-- `re.search` for `\[TogglID:(\d+)\]`: at each position, the literal head,
then a maximal non-empty digit run that must be followed by `]`; on failure
the scan advances one character (leftmost-match semantics). -/
def scanMarker : List Char → Option (List Char)
  | [] => none
  | c :: rest =>
    if markerLit.isPrefixOf (c :: rest) then
      if ((c :: rest).drop markerLit.length).takeWhile isPyDigit ≠ [] ∧
          (((c :: rest).drop markerLit.length).dropWhile isPyDigit).head? = some ']' then
        some (((c :: rest).drop markerLit.length).takeWhile isPyDigit)
      else scanMarker rest
    else scanMarker rest

/-- The Toggl id recovered from one recorded summary, if any. -/
def extractToggl (s : String) : Option String :=
  (scanMarker s.data).map String.mk

/-- The `existing_toggl_ids` set of `_sync_entries_to_issue`: ids recovered
from the collaborator's recorded summaries, empty when duplicate prevention
is off or the fetch raised. -/
def existingTogglIds (cfg : SyncConfig) (env : Env) : List String :=
  if cfg.prevent_duplicates then
    match env.getEntriesResult with
    | some summaries => summaries.filterMap extractToggl
    | none => []
  else []

/-! ### Text building (`_format_duration`, per-entry log description) -/

/-- `str.join` with a separator. -/
def joinSep (sep : String) : List String → String
  | [] => ""
  | [x] => x
  | x :: xs => x ++ sep ++ joinSep sep xs

/-- `SyncService._format_duration`. -/
def format_duration (seconds : Int) : String :=
  if 0 < seconds / 3600 then
    if 0 < (seconds % 3600) / 60 then
      toString (seconds / 3600) ++ "h " ++ toString ((seconds % 3600) / 60) ++ "m"
    else toString (seconds / 3600) ++ "h"
  else toString ((seconds % 3600) / 60) ++ "m"

/-- The per-entry time-log description built in `_sync_entries_to_issue`:
original description, tags, billable flag, rounding note, and — when
duplicate prevention is on — the machine-parseable `[TogglID:<id>]` marker. -/
def buildLogDescription (cfg : SyncConfig) (e : Entry) : String :=
  joinSep " "
    (["Toggl: " ++ e.description]
      ++ (if e.tags ≠ [] then ["[Tags: " ++ joinSep ", " e.tags ++ "]"] else [])
      ++ (if e.billable then ["[Billable]"] else [])
      ++ (if e.original_duration ≠ e.duration then
            ["[Rounded: " ++ format_duration e.original_duration ++ " → "
              ++ format_duration e.duration ++ "]"]
          else [])
      ++ (if cfg.prevent_duplicates then ["[TogglID:" ++ e.id ++ "]"] else []))

/-- The aggregate summary note appended after a multi-entry group. -/
def summaryNoteText (entries : List Entry) (total : Int) : String :=
  "📊 Toggl Sync Summary: " ++ toString entries.length
    ++ " entries totaling " ++ format_duration total
    ++ " logged from time tracking tool."

/-- Python `int()` on a rational: truncation toward zero. -/
def pyInt (q : ℚ) : Int := if q < 0 then ⌈q⌉ else ⌊q⌋

/-! ### `SyncService._sync_entries_to_issue` -/

/-- The per-entry loop of `_sync_entries_to_issue`: duplicate check, start
parse (a parse failure is the caught per-entry exception), then the actual or
simulated time-spent submission.  Returns the updated stats, the accumulated
`total_logged_time`, and the trace of mutating calls. -/
def syncEntriesLoop (cfg : SyncConfig) (env : Env) (iid : Nat)
    (existing : List String) : List Entry → Stats → Int →
    Stats × Int × List MutCall
  | [], s, total => (s, total, [])
  | e :: rest, s, total =>
    if cfg.prevent_duplicates ∧ e.id ∈ existing then
      syncEntriesLoop cfg env iid existing rest
        {s with skipped_entries := s.skipped_entries + 1} total
    else
      match env.parseStart e.start with
      | none =>
        syncEntriesLoop cfg env iid existing rest
          {s with errors := s.errors + 1} total
      | some dt =>
        if cfg.dry_run then
          syncEntriesLoop cfg env iid existing rest
            {s with synced_entries := s.synced_entries + 1} (total + e.duration)
        else if env.addTimeResult e then
          match syncEntriesLoop cfg env iid existing rest
              {s with synced_entries := s.synced_entries + 1}
              (total + e.duration) with
          | (s1, t1, calls) =>
            (s1, t1,
              MutCall.addTimeSpent iid e.duration dt (buildLogDescription cfg e)
                :: calls)
        else
          syncEntriesLoop cfg env iid existing rest
            {s with errors := s.errors + 1} total

/-- The best-effort estimate step after the loop: only in a live run with
estimates enabled and positive logged time, and only when the issue has no
estimate yet (a falsy `time_estimate`). -/
def estimateStep (cfg : SyncConfig) (env : Env) (iid : Nat) (s : Stats)
    (total : Int) : Stats × List MutCall :=
  if cfg.add_time_estimates ∧ 0 < total ∧ cfg.dry_run = false then
    if env.currentEstimate = 0 then
      if env.setEstimateResult then
        ({s with time_estimates_added := s.time_estimates_added + 1},
         [MutCall.setTimeEstimate iid (pyInt (total * cfg.estimate_multiplier))])
      else (s, [MutCall.setTimeEstimate iid (pyInt (total * cfg.estimate_multiplier))])
    else (s, [])
  else (s, [])

/-- The best-effort summary note after a live multi-entry group. -/
def noteStep (cfg : SyncConfig) (iid : Nat) (entries : List Entry)
    (total : Int) : List MutCall :=
  if 1 < entries.length ∧ cfg.dry_run = false then
    [MutCall.addNoteToIssue iid (summaryNoteText entries total)]
  else []

/-- `SyncService._sync_entries_to_issue`. -/
def syncEntriesToIssue (cfg : SyncConfig) (env : Env) (issue : Issue)
    (entries : List Entry) (s : Stats) : Stats × List MutCall :=
  match syncEntriesLoop cfg env issue.iid (existingTogglIds cfg env) entries s 0 with
  | (s1, total, calls1) =>
    match estimateStep cfg env issue.iid s1 total with
    | (s2, calls2) =>
      (s2, calls1 ++ calls2 ++ noteStep cfg issue.iid entries total)

/-! ### `SyncService._sync_ticket_entries` -/

/-- `SyncService._should_create_issue`: reject short trimmed names and names
containing a configured skip term case-insensitively. -/
def shouldCreateIssue (cfg : SyncConfig) (ticket_name : String) : Bool :=
  if (pyStrip ticket_name).length < cfg.min_description_length then false
  else if cfg.skip_generic_terms.any
      (fun term => containsSub (pyLower term).data (pyLower ticket_name).data)
  then false
  else true

/-- Truthiness of `ticket_name and ticket_name.strip()`. -/
def nameEligible : Option String → Bool
  | some t => pyStrip t ≠ ""
  | none => false

/-- Stats update after a successful live issue creation: `created_issues`
increments, and `time_estimates_added` increments when a truthy estimate was
sent with the creation. -/
def bumpCreate (cfg : SyncConfig) (s : Stats) (total : Int) : Stats :=
  if cfg.add_time_estimates ∧ pyInt (total * cfg.estimate_multiplier) ≠ 0 then
    {s with created_issues := s.created_issues + 1,
            time_estimates_added := s.time_estimates_added + 1}
  else {s with created_issues := s.created_issues + 1}

/-- Issue resolution: `find_issue_by_ticket_id` is only consulted when the
group has a ticket id. -/
def resolveIssue (env : Env) (ticket_id : Option String) : Option Issue :=
  match ticket_id with
  | some tid => env.findIssue tid
  | none => none

/-- `_sync_ticket_entries` after the `processed_entries` bump: resolve or
create the target issue, then log the group's entries to it; groups with no
issue are counted skipped. -/
def syncTicketEntriesCore (cfg : SyncConfig) (env : Env)
    (key : Option String × Option String) (entries : List Entry) (s : Stats) :
    Stats × List MutCall :=
  match resolveIssue env key.1 with
  | some iss => syncEntriesToIssue cfg env iss entries s
  | none =>
    if nameEligible key.2 then
      if shouldCreateIssue cfg (key.2.getD "") then
        if cfg.auto_create_issues then
          if cfg.dry_run then
            ({s with created_issues := s.created_issues + 1,
                     skipped_entries := s.skipped_entries + entries.length}, [])
          else
            match env.createIssueResult with
            | some iss =>
              match syncEntriesToIssue cfg env iss entries
                  (bumpCreate cfg s ((entries.map Entry.duration).sum)) with
              | (s1, calls) => (s1, MutCall.createIssue (key.2.getD "") :: calls)
            | none =>
              ({s with errors := s.errors + 1},
               [MutCall.createIssue (key.2.getD "")])
        else
          ({s with skipped_entries := s.skipped_entries + entries.length}, [])
      else
        ({s with skipped_entries := s.skipped_entries + entries.length}, [])
    else
      ({s with skipped_entries := s.skipped_entries + entries.length}, [])

/-- `SyncService._sync_ticket_entries`. -/
def syncTicketEntries (cfg : SyncConfig) (env : Env)
    (key : Option String × Option String) (entries : List Entry) (s : Stats) :
    Stats × List MutCall :=
  syncTicketEntriesCore cfg env key entries
    {s with processed_entries := s.processed_entries + entries.length}

/-! ## Supporting lemmas -/

/-- `pyRound d rts * rts` is the multiple of `rts` nearest to `d` with ties
broken to the even multiple, for any positive `rts`. -/
theorem pyRound_isNearest (d rts : Int) (hrts : 0 < rts) :
    isNearestMultipleHE rts d (pyRound d rts * rts) := by
  have hne : rts ≠ 0 := ne_of_gt hrts
  have hdm : rts * (d / rts) + d % rts = d := Int.ediv_add_emod d rts
  have h0 : 0 ≤ d % rts := Int.emod_nonneg d hne
  have h1 : d % rts < rts := Int.emod_lt_of_pos d hrts
  unfold pyRound isNearestMultipleHE
  split_ifs with c1 c2 c3
  · refine ⟨dvd_mul_left rts (d / rts), Or.inl ?_⟩
    have e1 : d - d / rts * rts = d % rts := by
      rw [mul_comm]; linarith
    rw [e1, abs_of_nonneg h0]; exact c1
  · refine ⟨dvd_mul_left rts (d / rts + 1), Or.inl ?_⟩
    have e1 : d - (d / rts + 1) * rts = d % rts - rts := by
      rw [add_mul, one_mul, mul_comm]; linarith
    rw [e1, abs_of_nonpos (by linarith)]; linarith
  · refine ⟨dvd_mul_left rts (d / rts), Or.inr ⟨?_, ?_⟩⟩
    · have e1 : d - d / rts * rts = d % rts := by
        rw [mul_comm]; linarith
      rw [e1, abs_of_nonneg h0]; linarith
    · rw [Int.mul_ediv_cancel _ hne]
      exact Int.dvd_of_emod_eq_zero c3
  · refine ⟨dvd_mul_left rts (d / rts + 1), Or.inr ⟨?_, ?_⟩⟩
    · have e1 : d - (d / rts + 1) * rts = d % rts - rts := by
        rw [add_mul, one_mul, mul_comm]; linarith
      rw [e1, abs_of_nonpos (by linarith)]; linarith
    · rw [Int.mul_ediv_cancel _ hne]
      rcases Int.emod_two_eq (d / rts) with h | h
      · exact absurd h c3
      · exact Int.dvd_of_emod_eq_zero (by omega)

/-- For a non-negative dividend and positive divisor, `pyRound` is
non-negative. -/
theorem pyRound_nonneg (d rts : Int) (hd : 0 ≤ d) (hrts : 0 < rts) :
    0 ≤ pyRound d rts := by
  have hq : 0 ≤ d / rts := Int.ediv_nonneg hd (le_of_lt hrts)
  unfold pyRound
  split_ifs <;> linarith

/-- A weekday is one of 0..6. -/
theorem weekday_lt_seven (dt : PyDate) : weekday dt < 7 :=
  Nat.mod_lt _ (by omega)

/-- Every id the marker scan recovers is a non-empty digit string. -/
theorem scanMarker_digits :
    ∀ (l t : List Char), scanMarker l = some t →
      t ≠ [] ∧ ∀ c ∈ t, isPyDigit c = true := by
  intro l
  induction l with
  | nil => intro t h; simp [scanMarker] at h
  | cons c rest ih =>
    intro t h
    rw [scanMarker] at h
    split at h
    · split at h
      · obtain rfl := Option.some.inj h
        rename_i h2
        exact ⟨h2.1, fun a ha => List.mem_takeWhile_imp ha⟩
      · exact ih t h
    · exact ih t h

/-- The `estimateStep` only ever touches `time_estimates_added`: all counters
the claims are about pass through unchanged. -/
theorem estimateStep_preserves (cfg : SyncConfig) (env : Env) (iid : Nat)
    (s : Stats) (total : Int) :
    (estimateStep cfg env iid s total).1.synced_entries = s.synced_entries ∧
    (estimateStep cfg env iid s total).1.skipped_entries = s.skipped_entries ∧
    (estimateStep cfg env iid s total).1.created_issues = s.created_issues ∧
    (estimateStep cfg env iid s total).1.errors = s.errors := by
  unfold estimateStep
  split_ifs <;> exact ⟨rfl, rfl, rfl, rfl⟩

/-- When every entry of the list is recognised as a duplicate, the per-entry
loop skips each one: it adds the list's length to `skipped_entries`, leaves
everything else (and the logged total) unchanged, and issues no call. -/
theorem syncLoop_all_dup (cfg : SyncConfig) (env : Env) (iid : Nat)
    (existing : List String) (hp : cfg.prevent_duplicates = true) :
    ∀ (l : List Entry) (s : Stats) (total : Int),
      (∀ e ∈ l, e.id ∈ existing) →
      (syncEntriesLoop cfg env iid existing l s total).1.synced_entries =
        s.synced_entries ∧
      (syncEntriesLoop cfg env iid existing l s total).1.skipped_entries =
        s.skipped_entries + l.length ∧
      (syncEntriesLoop cfg env iid existing l s total).1.errors = s.errors ∧
      (syncEntriesLoop cfg env iid existing l s total).2.1 = total ∧
      (syncEntriesLoop cfg env iid existing l s total).2.2 = [] := by
  intro l
  induction l with
  | nil => intro s total _; exact ⟨rfl, rfl, rfl, rfl, rfl⟩
  | cons e rest ih =>
    intro s total hall
    rw [syncEntriesLoop,
      if_pos ⟨hp, hall e (List.mem_cons_self e rest)⟩]
    have := ih {s with skipped_entries := s.skipped_entries + 1} total
      (fun x hx => hall x (List.mem_cons_of_mem e hx))
    refine ⟨this.1, ?_, this.2.2⟩
    rw [this.2.1]
    simp only [List.length_cons]
    omega

/-- In a dry run the per-entry loop issues no mutating call. -/
theorem syncLoop_dry_trace (cfg : SyncConfig) (env : Env) (iid : Nat)
    (existing : List String) (hdry : cfg.dry_run = true) :
    ∀ (l : List Entry) (s : Stats) (total : Int),
      (syncEntriesLoop cfg env iid existing l s total).2.2 = [] := by
  intro l
  induction l with
  | nil => intro s total; rfl
  | cons e rest ih =>
    intro s total
    rw [syncEntriesLoop]
    split
    · exact ih _ _
    · cases henv : env.parseStart e.start with
      | none => exact ih _ _
      | some dt =>
        simp only [henv, hdry, if_true]
        exact ih _ _

/-- In a dry run the estimate step is a no-op. -/
theorem estimateStep_dry (cfg : SyncConfig) (env : Env) (iid : Nat)
    (s : Stats) (total : Int) (hdry : cfg.dry_run = true) :
    estimateStep cfg env iid s total = (s, []) := by
  unfold estimateStep
  rw [if_neg (by simp [hdry])]

/-- In a dry run no summary note is issued. -/
theorem noteStep_dry (cfg : SyncConfig) (iid : Nat) (entries : List Entry)
    (total : Int) (hdry : cfg.dry_run = true) :
    noteStep cfg iid entries total = [] := by
  unfold noteStep
  rw [if_neg (by simp [hdry])]

/-- When every submission succeeds, a dry-run and a live per-entry loop over
the same entries produce identical statistics and identical logged totals. -/
theorem syncLoop_mode_invariant (cfgA cfgB : SyncConfig) (env : Env)
    (iid : Nat) (existingA existingB : List String)
    (hA : cfgA.dry_run = true) (hB : cfgB.dry_run = false)
    (hprev : cfgA.prevent_duplicates = cfgB.prevent_duplicates)
    (hexist : existingA = existingB)
    (hadd : ∀ e, env.addTimeResult e = true) :
    ∀ (l : List Entry) (s : Stats) (total : Int),
      (syncEntriesLoop cfgA env iid existingA l s total).1 =
        (syncEntriesLoop cfgB env iid existingB l s total).1 ∧
      (syncEntriesLoop cfgA env iid existingA l s total).2.1 =
        (syncEntriesLoop cfgB env iid existingB l s total).2.1 := by
  subst hexist
  intro l
  induction l with
  | nil => intro s total; exact ⟨rfl, rfl⟩
  | cons e rest ih =>
    intro s total
    rw [syncEntriesLoop, syncEntriesLoop]
    by_cases hdup : cfgB.prevent_duplicates ∧ e.id ∈ existingA
    · rw [if_pos hdup, if_pos (by rw [hprev]; exact hdup)]
      exact ih _ _
    · rw [if_neg hdup, if_neg (by rw [hprev]; exact hdup)]
      cases henv : env.parseStart e.start with
      | none => exact ih _ _
      | some dt =>
        simp only [hA, hB, hadd e, if_true, if_false, Bool.false_eq_true]
        rcases hrec : syncEntriesLoop cfgB env iid existingA rest
            {s with synced_entries := s.synced_entries + 1}
            (total + e.duration) with ⟨s1, t1, calls⟩
        have := ih {s with synced_entries := s.synced_entries + 1}
          (total + e.duration)
        rw [hrec] at this
        exact this

/-- In a dry run `_sync_entries_to_issue` issues no mutating call at all. -/
theorem syncEntriesToIssue_dry_trace (cfg : SyncConfig) (env : Env)
    (iss : Issue) (entries : List Entry) (s : Stats)
    (hdry : cfg.dry_run = true) :
    (syncEntriesToIssue cfg env iss entries s).2 = [] := by
  unfold syncEntriesToIssue
  rcases hL : syncEntriesLoop cfg env iss.iid (existingTogglIds cfg env)
      entries s 0 with ⟨s1, total, calls1⟩
  have h1 : calls1 = [] := by
    have h := syncLoop_dry_trace cfg env iss.iid (existingTogglIds cfg env)
      hdry entries s 0
    rw [hL] at h
    exact h
  simp only [estimateStep_dry cfg env iss.iid s1 total hdry,
    noteStep_dry cfg iss.iid entries total hdry, h1, List.append_nil,
    List.nil_append]

/-! ## Claim theorems -/

/-- C4: the ticket parser applies its ordered rule list to the trimmed
description case-insensitively and returns the first matching rule's result:
the five fixture inputs parse to the stated `(ticket_id, ticket_name)` pairs,
and whenever rule 1 (the `kazoo#` rule) matches the stripped description, the
parser's output is exactly rule 1's result, regardless of any later rule. -/
theorem ticket_parser_fixed_cases :
    extract_ticket_info "#123: fix bug" = (some "123", some "fix bug") ∧
    extract_ticket_info "PROJ-456 dashboard" = (some "PROJ-456", some "dashboard") ∧
    extract_ticket_info "Issue #789: docs" = (some "789", some "docs") ∧
    extract_ticket_info "[TICKET-321] review" = (some "TICKET-321", some "review") ∧
    extract_ticket_info "meeting" = (none, some "meeting") ∧
    (∀ (d : String) (g1 g2 : List Char),
      matchP1 (pyStripL d.data) = some (g1, g2) →
      extract_ticket_info d = mkTicketResult d g1 g2) := by
  refine ⟨by decide, by decide, by decide, by decide, by decide, ?_⟩
  intro d g1 g2 h
  rcases eq_or_ne d "" with he | he
  · rw [he] at h
    rw [show matchP1 (pyStripL ("" : String).data) = none from rfl] at h
    cases h
  · unfold extract_ticket_info
    rw [if_neg he]
    unfold ticketPatterns firstMatch
    rw [h]

/-- C4 witness: rule 1 applied at a concrete input. -/
theorem ticket_parser_fixed_cases_witness :
    extract_ticket_info "kazoo#77 fix" = (some "77", some "fix") :=
  ticket_parser_fixed_cases.2.2.2.2.2 "kazoo#77 fix" ['7', '7']
    ['f', 'i', 'x'] (by decide)

/-- C5: for every positive duration and granularity in
`{1, 5, 10, 15, 30}` minutes, `round_time` returns the round-half-to-even
nearest multiple of `g * 60` seconds, except that when that nearest multiple
is zero the result is clamped to exactly `g * 60`; the result is therefore
never zero for positive input, and in particular `round_time 1 15 = 900`. -/
theorem round_time_nearest_clamped (d g : Int) (hd : 0 < d)
    (hg : g = 1 ∨ g = 5 ∨ g = 10 ∨ g = 15 ∨ g = 30) :
    0 < round_time d g ∧
    (isNearestMultipleHE (g * 60) d (round_time d g) ∨
      (isNearestMultipleHE (g * 60) d 0 ∧ round_time d g = g * 60)) ∧
    round_time 1 15 = 900 := by
  have hgpos : 0 < g := by rcases hg with h | h | h | h | h <;> omega
  have hrts : 0 < g * 60 := by omega
  have hnear := pyRound_isNearest d (g * 60) hrts
  have hnn : 0 ≤ pyRound d (g * 60) := pyRound_nonneg d (g * 60) (le_of_lt hd) hrts
  have hle : ¬g ≤ 0 := by omega
  unfold round_time
  rw [if_neg hle]
  by_cases hz : pyRound d (g * 60) * (g * 60) = 0 ∧ 0 < d
  · rw [if_pos hz]
    refine ⟨hrts, Or.inr ⟨?_, rfl⟩, by decide⟩
    rw [← hz.1]; exact hnear
  · rw [if_neg hz]
    have hne : pyRound d (g * 60) * (g * 60) ≠ 0 := fun h => hz ⟨h, hd⟩
    have hge : 0 ≤ pyRound d (g * 60) * (g * 60) :=
      mul_nonneg hnn (le_of_lt hrts)
    exact ⟨lt_of_le_of_ne hge (Ne.symm hne), Or.inl hnear, by decide⟩

/-- C5 witness: `round_time` at duration 1 s with 15-minute granularity. -/
theorem round_time_nearest_clamped_witness :
    0 < round_time 1 15 ∧ round_time 1 15 = 900 :=
  ⟨(round_time_nearest_clamped 1 15 (by decide)
      (Or.inr (Or.inr (Or.inr (Or.inl rfl))))).1,
   (round_time_nearest_clamped 1 15 (by decide)
      (Or.inr (Or.inr (Or.inr (Or.inl rfl))))).2.2⟩

/-- C6 counterexample: with 15-minute granularity the code maps 310 s to
900 s, not to the 300 s the claim states (and 650 s to 900 s, not 600 s):
310/900 and 650/900 both round to the multiple 0 resp. 1 of 900 s. -/
theorem round_time_310_counterexample :
    round_time 310 15 ≠ 300 ∧ round_time 650 15 ≠ 600 := by decide

/-- C6 amended: with 15-minute granularity, 310 s rounds (after the clamp) to
900 s and 650 s rounds to 900 s; the spec's stated values 300 s and 600 s are
what the code produces under 5-minute granularity. -/
theorem round_time_values_amended :
    round_time 310 15 = 900 ∧ round_time 650 15 = 900 ∧
    round_time 310 5 = 300 ∧ round_time 650 5 = 600 := by decide

/-- C7 counterexample: for the empty description the parser returns
`(none, none)` — there is no (non-empty) returned ticket name at all, so the
claim's "including the empty string" case fails. -/
theorem ticket_name_nonempty_counterexample :
    (extract_ticket_info "").2 = none ∧
    ¬∃ n, (extract_ticket_info "").2 = some n ∧ n ≠ "" := by
  refine ⟨rfl, ?_⟩
  rintro ⟨n, hn, -⟩
  rw [show (extract_ticket_info "").2 = none from rfl] at hn
  cases hn

/-- C7 amended: for every non-empty description the returned ticket name is a
non-empty string; when no rule matches it is the original description, and
when a rule matches with an empty (or whitespace-only) trailing capture the
name falls back to the full original description.  (The empty description
short-circuits to `(none, none)`.) -/
theorem ticket_name_nonempty_amended (d : String) (hd : d ≠ "") :
    (∃ n, (extract_ticket_info d).2 = some n ∧ n ≠ "") ∧
    (firstMatch ticketPatterns (pyStripL d.data) = none →
      extract_ticket_info d = (none, some d)) ∧
    (∀ g1 g2, firstMatch ticketPatterns (pyStripL d.data) = some (g1, g2) →
      pyStripL g2 = [] → (extract_ticket_info d).2 = some d) := by
  refine ⟨?_, ?_, ?_⟩
  · cases hfm : firstMatch ticketPatterns (pyStripL d.data) with
    | none =>
      simp only [extract_ticket_info, if_neg hd, hfm]
      exact ⟨d, rfl, hd⟩
    | some p =>
      obtain ⟨g1, g2⟩ := p
      simp only [extract_ticket_info, if_neg hd, hfm, mkTicketResult]
      split_ifs with h2 h3
      · exact ⟨d, rfl, hd⟩
      · exact ⟨d, rfl, hd⟩
      · exact ⟨String.mk (pyStripL g2), rfl, h3⟩
  · intro hfm
    simp only [extract_ticket_info, if_neg hd, hfm]
  · intro g1 g2 hfm hstrip
    simp only [extract_ticket_info, if_neg hd, hfm, mkTicketResult]
    split_ifs with h2 h3 <;> try rfl
    rw [hstrip] at h3
    exact absurd (by decide) h3

/-- C7 witness: the amended invariant at the fixture input `"meeting"`. -/
theorem ticket_name_nonempty_amended_witness :
    ∃ n, (extract_ticket_info "meeting").2 = some n ∧ n ≠ "" :=
  (ticket_name_nonempty_amended "meeting" (by decide)).1

/-- C9: the weekday filter with weekend exclusion on keeps exactly the
entries whose start timestamp fails to parse (fail-open) or parses to a
weekday other than Saturday (5) and Sunday (6) in CPython's Monday-0
convention; with weekend exclusion off it drops nothing. -/
theorem weekend_filter_spec (parse : String → Option PyDate)
    (entries : List Entry) :
    filter_by_weekdays parse entries true =
      entries.filter (fun e =>
        match parse e.start with
        | some dt => decide ¬(weekday dt = 5 ∨ weekday dt = 6)
        | none => true) ∧
    filter_by_weekdays parse entries false = entries := by
  constructor
  · unfold filter_by_weekdays
    rw [if_neg (by decide)]
    refine List.filter_congr ?_
    intro e _
    cases hp : parse e.start with
    | none => rfl
    | some dt =>
      have h7 := weekday_lt_seven dt
      simp only [decide_eq_decide]
      omega
  · rfl

/-- C1 (amended): when duplicate prevention is on and, for every eligible
entry of the group, the entry's id is recovered from some recorded summary by
the `[TogglID:<digits>]` marker scan, a repeated run logs nothing:
`synced_entries` stays 0 and `skipped_entries` equals the number of eligible
entries, because each id is found in the recovered marker-id set and excluded
before logging. -/
theorem dedup_second_run_all_skipped (cfg : SyncConfig) (env : Env)
    (iss : Issue) (entries : List Entry) (summaries : List String)
    (hp : cfg.prevent_duplicates = true)
    (hs : env.getEntriesResult = some summaries)
    (hm : ∀ e ∈ entries, ∃ s ∈ summaries, extractToggl s = some e.id) :
    (syncEntriesToIssue cfg env iss entries Stats.init).1.synced_entries = 0 ∧
    (syncEntriesToIssue cfg env iss entries Stats.init).1.skipped_entries =
      entries.length := by
  have hall : ∀ e ∈ entries, e.id ∈ existingTogglIds cfg env := by
    intro e he
    unfold existingTogglIds
    rw [if_pos hp, hs]
    rcases hm e he with ⟨x, hxm, hid⟩
    exact List.mem_filterMap.mpr ⟨x, hxm, hid⟩
  have hloop := syncLoop_all_dup cfg env iss.iid (existingTogglIds cfg env)
    hp entries Stats.init 0 hall
  unfold syncEntriesToIssue
  rcases hL : syncEntriesLoop cfg env iss.iid (existingTogglIds cfg env)
      entries Stats.init 0 with ⟨s1, total, calls1⟩
  rw [hL] at hloop
  have hpres := estimateStep_preserves cfg env iss.iid s1 total
  rcases hE : estimateStep cfg env iss.iid s1 total with ⟨s2, calls2⟩
  rw [hE] at hpres
  have hp1 : s2.synced_entries = s1.synced_entries := hpres.1
  have hp2 : s2.skipped_entries = s1.skipped_entries := hpres.2.1
  have hl1 : s1.synced_entries = Stats.init.synced_entries := hloop.1
  have hl2 : s1.skipped_entries =
      Stats.init.skipped_entries + entries.length := hloop.2.1
  simp only [hE]
  constructor
  · rw [hp1, hl1]
    rfl
  · rw [hp2, hl2]
    show 0 + entries.length = entries.length
    omega

/-- When every submission succeeds, `_sync_entries_to_issue` produces the
same `synced_entries` and `created_issues` in dry-run and live mode. -/
theorem syncEntriesToIssue_mode_invariant (cfg : SyncConfig) (env : Env)
    (iss : Issue) (entries : List Entry) (s : Stats)
    (hadd : ∀ e, env.addTimeResult e = true) :
    (syncEntriesToIssue {cfg with dry_run := true} env iss entries
        s).1.synced_entries =
      (syncEntriesToIssue {cfg with dry_run := false} env iss entries
        s).1.synced_entries ∧
    (syncEntriesToIssue {cfg with dry_run := true} env iss entries
        s).1.created_issues =
      (syncEntriesToIssue {cfg with dry_run := false} env iss entries
        s).1.created_issues := by
  unfold syncEntriesToIssue
  have h := syncLoop_mode_invariant {cfg with dry_run := true}
    {cfg with dry_run := false} env iss.iid
    (existingTogglIds {cfg with dry_run := true} env)
    (existingTogglIds {cfg with dry_run := false} env)
    rfl rfl rfl rfl hadd entries s 0
  rcases hLd : syncEntriesLoop {cfg with dry_run := true} env iss.iid
      (existingTogglIds {cfg with dry_run := true} env) entries s 0
    with ⟨sd, td, cd⟩
  rcases hLl : syncEntriesLoop {cfg with dry_run := false} env iss.iid
      (existingTogglIds {cfg with dry_run := false} env) entries s 0
    with ⟨sl, tl, cl⟩
  rw [hLd, hLl] at h
  have hs1 : sd = sl := h.1
  have hpd := estimateStep_preserves {cfg with dry_run := true} env iss.iid sd td
  have hpl := estimateStep_preserves {cfg with dry_run := false} env iss.iid sl tl
  rcases hEd : estimateStep {cfg with dry_run := true} env iss.iid sd td
    with ⟨sd2, cd2⟩
  rcases hEl : estimateStep {cfg with dry_run := false} env iss.iid sl tl
    with ⟨sl2, cl2⟩
  rw [hEd] at hpd
  rw [hEl] at hpl
  have hd1 : sd2.synced_entries = sd.synced_entries := hpd.1
  have hl1 : sl2.synced_entries = sl.synced_entries := hpl.1
  have hd2 : sd2.created_issues = sd.created_issues := hpd.2.2.1
  have hl2 : sl2.created_issues = sl.created_issues := hpl.2.2.1
  simp only [hEd, hEl]
  constructor
  · rw [hd1, hl1, hs1]
  · rw [hd2, hl2, hs1]

/-- C1 witness: one eligible entry whose numeric id is recovered from the
issue's recorded summaries; the second run syncs nothing and skips it. -/
theorem dedup_second_run_all_skipped_witness :
    (syncEntriesToIssue ⟨false, true, true, false, 0, 5, []⟩
      ⟨fun _ => some ⟨2024, 1, 2⟩, some ["[TogglID:123]"], fun _ => true, 0,
       true, fun _ => none, none⟩
      ⟨42⟩ [⟨"123", "fix", "2024-01-02T10:00:00Z", 900, 900, true, []⟩]
      Stats.init).1.synced_entries = 0 ∧
    (syncEntriesToIssue ⟨false, true, true, false, 0, 5, []⟩
      ⟨fun _ => some ⟨2024, 1, 2⟩, some ["[TogglID:123]"], fun _ => true, 0,
       true, fun _ => none, none⟩
      ⟨42⟩ [⟨"123", "fix", "2024-01-02T10:00:00Z", 900, 900, true, []⟩]
      Stats.init).1.skipped_entries = 1 :=
  dedup_second_run_all_skipped _ _ _ _ ["[TogglID:123]"] rfl rfl (by decide)

/-- C1 counterexample: the claim fails as stated for an arbitrary raw-entry
set — an entry with the non-numeric id `"abc"` whose first-run marker
`[TogglID:abc]` is present verbatim in the issue's recorded summary is still
re-logged on the second run (`synced_entries = 1`, not 0), because the
digits-only recovery scan never finds its marker. -/
theorem dedup_second_run_counterexample :
    (syncEntriesToIssue ⟨false, true, true, false, 0, 5, []⟩
      ⟨fun _ => some ⟨2024, 1, 2⟩,
       some ["🕒 Time logged: 15m on 2024-01-02 - Toggl: fix [TogglID:abc]"],
       fun _ => true, 0, true, fun _ => none, none⟩
      ⟨42⟩ [⟨"abc", "fix", "2024-01-02T10:00:00Z", 900, 900, true, []⟩]
      Stats.init).1.synced_entries = 1 ∧
    (syncEntriesToIssue ⟨false, true, true, false, 0, 5, []⟩
      ⟨fun _ => some ⟨2024, 1, 2⟩,
       some ["🕒 Time logged: 15m on 2024-01-02 - Toggl: fix [TogglID:abc]"],
       fun _ => true, 0, true, fun _ => none, none⟩
      ⟨42⟩ [⟨"abc", "fix", "2024-01-02T10:00:00Z", 900, 900, true, []⟩]
      Stats.init).1.skipped_entries = 0 := by
  decide

/-- C2: in a dry run, reconciling a group issues no mutating collaborator
call at all — the trace of `createIssue` / `addTimeSpent` /
`setTimeEstimate` / `addNoteToIssue` invocations is empty for every input
group, entry list and collaborator state. -/
theorem dry_run_no_mutating_calls (cfg : SyncConfig) (env : Env)
    (key : Option String × Option String) (entries : List Entry) (s : Stats)
    (hdry : cfg.dry_run = true) :
    (syncTicketEntries cfg env key entries s).2 = [] := by
  unfold syncTicketEntries syncTicketEntriesCore
  cases hri : resolveIssue env key.1 with
  | some iss =>
    exact syncEntriesToIssue_dry_trace cfg env iss entries _ hdry
  | none =>
    split_ifs with h1 h2 h3 <;> rfl

/-- C2 witness: a dry-run reconciliation of a concrete group issues no
mutating call. -/
theorem dry_run_no_mutating_calls_witness :
    (syncTicketEntries ⟨true, true, true, true, 0, 5, ["meeting"]⟩
      ⟨fun _ => some ⟨2024, 1, 2⟩, some [], fun _ => true, 0, true,
       fun _ => some ⟨3⟩, some ⟨7⟩⟩
      (some "42", some "fix login")
      [⟨"1", "fix login", "2024-01-02T10:00:00Z", 900, 650, true, []⟩]
      Stats.init).2 = [] :=
  dry_run_no_mutating_calls _ _ _ _ _ rfl

/-- C3 counterexample: dry-run and live counters are not equal for every
input even when all mutations succeed — for a group that resolves no
existing issue and is auto-created, the live run logs its entry
(`synced_entries = 1`) while the dry run counts it skipped
(`synced_entries = 0`), although both count `created_issues = 1`. -/
theorem dry_live_counters_counterexample :
    (syncTicketEntries ⟨false, false, true, false, 0, 5, []⟩
      ⟨fun _ => some ⟨2024, 1, 2⟩, some [], fun _ => true, 0, true,
       fun _ => none, some ⟨7⟩⟩
      (none, some "frontend work")
      [⟨"1", "frontend work", "2024-01-02T10:00:00Z", 900, 900, true, []⟩]
      Stats.init).1.synced_entries = 1 ∧
    (syncTicketEntries ⟨true, false, true, false, 0, 5, []⟩
      ⟨fun _ => some ⟨2024, 1, 2⟩, some [], fun _ => true, 0, true,
       fun _ => none, some ⟨7⟩⟩
      (none, some "frontend work")
      [⟨"1", "frontend work", "2024-01-02T10:00:00Z", 900, 900, true, []⟩]
      Stats.init).1.synced_entries = 0 ∧
    (syncTicketEntries ⟨false, false, true, false, 0, 5, []⟩
      ⟨fun _ => some ⟨2024, 1, 2⟩, some [], fun _ => true, 0, true,
       fun _ => none, some ⟨7⟩⟩
      (none, some "frontend work")
      [⟨"1", "frontend work", "2024-01-02T10:00:00Z", 900, 900, true, []⟩]
      Stats.init).1.created_issues = 1 ∧
    (syncTicketEntries ⟨true, false, true, false, 0, 5, []⟩
      ⟨fun _ => some ⟨2024, 1, 2⟩, some [], fun _ => true, 0, true,
       fun _ => none, some ⟨7⟩⟩
      (none, some "frontend work")
      [⟨"1", "frontend work", "2024-01-02T10:00:00Z", 900, 900, true, []⟩]
      Stats.init).1.created_issues = 1 := by
  decide

/-- C3 (amended): when the group resolves an existing issue through
`find_issue_by_ticket_id` and every live mutation succeeds, a dry run
produces the same `synced_entries` and `created_issues` as the live run;
equality of `synced_entries` fails only on the issue-creation path, where the
dry run counts the group's entries as skipped (see the counterexample). -/
theorem dry_live_counters_resolved_issue (cfg : SyncConfig) (env : Env)
    (key : Option String × Option String) (entries : List Entry)
    (tid : String) (iss : Issue)
    (hadd : ∀ e, env.addTimeResult e = true)
    (hk : key.1 = some tid)
    (hf : env.findIssue tid = some iss) :
    (syncTicketEntries {cfg with dry_run := true} env key entries
        Stats.init).1.synced_entries =
      (syncTicketEntries {cfg with dry_run := false} env key entries
        Stats.init).1.synced_entries ∧
    (syncTicketEntries {cfg with dry_run := true} env key entries
        Stats.init).1.created_issues =
      (syncTicketEntries {cfg with dry_run := false} env key entries
        Stats.init).1.created_issues := by
  have hr : resolveIssue env key.1 = some iss := by
    rw [hk]; exact hf
  unfold syncTicketEntries syncTicketEntriesCore
  rw [hr]
  exact syncEntriesToIssue_mode_invariant cfg env iss entries _ hadd

/-- C3 witness: the amended equivalence at a resolved issue with one entry. -/
theorem dry_live_counters_resolved_issue_witness :
    (syncTicketEntries
      ({(⟨false, true, true, false, 0, 5, []⟩ : SyncConfig) with
        dry_run := true})
      ⟨fun _ => some ⟨2024, 1, 2⟩, some [], fun _ => true, 0, true,
       fun _ => some ⟨42⟩, none⟩
      (some "42", some "fix")
      [⟨"1", "fix", "2024-01-02T10:00:00Z", 900, 900, true, []⟩]
      Stats.init).1.synced_entries =
    (syncTicketEntries
      ({(⟨false, true, true, false, 0, 5, []⟩ : SyncConfig) with
        dry_run := false})
      ⟨fun _ => some ⟨2024, 1, 2⟩, some [], fun _ => true, 0, true,
       fun _ => some ⟨42⟩, none⟩
      (some "42", some "fix")
      [⟨"1", "fix", "2024-01-02T10:00:00Z", 900, 900, true, []⟩]
      Stats.init).1.synced_entries :=
  (dry_live_counters_resolved_issue _ _ _ _ "42" ⟨42⟩ (fun _ => rfl) rfl
    rfl).1

/-- C8: a failed per-entry time-spent submission (the collaborator returns
false) increments the error counter by exactly one, and the loop continues
with the remaining entries of the group exactly as it would have without the
failed entry. -/
theorem per_entry_failure_isolated (cfg : SyncConfig) (env : Env) (iid : Nat)
    (existing : List String) (e : Entry) (rest : List Entry) (s : Stats)
    (total : Int) (dt : PyDate)
    (hdup : ¬(cfg.prevent_duplicates ∧ e.id ∈ existing))
    (hparse : env.parseStart e.start = some dt)
    (hdry : cfg.dry_run = false)
    (hfail : env.addTimeResult e = false) :
    syncEntriesLoop cfg env iid existing (e :: rest) s total =
      syncEntriesLoop cfg env iid existing rest
        {s with errors := s.errors + 1} total := by
  rw [syncEntriesLoop, if_neg hdup]
  simp only [hparse, hdry, hfail, Bool.false_eq_true, if_false]

/-- C8 witness: a concrete failing submission adds one error and hands the
rest of the group to the unchanged continuation. -/
theorem per_entry_failure_isolated_witness :
    syncEntriesLoop ⟨false, true, true, false, 0, 5, []⟩
      ⟨fun _ => some ⟨2024, 1, 2⟩, some [], fun _ => false, 0, true,
       fun _ => none, none⟩ 42 []
      [⟨"1", "a", "2024-01-02T10:00:00Z", 900, 900, true, []⟩,
       ⟨"2", "b", "2024-01-02T11:00:00Z", 900, 900, true, []⟩]
      Stats.init 0 =
    syncEntriesLoop ⟨false, true, true, false, 0, 5, []⟩
      ⟨fun _ => some ⟨2024, 1, 2⟩, some [], fun _ => false, 0, true,
       fun _ => none, none⟩ 42 []
      [⟨"2", "b", "2024-01-02T11:00:00Z", 900, 900, true, []⟩]
      {Stats.init with errors := Stats.init.errors + 1} 0 :=
  per_entry_failure_isolated _ _ _ _ _ _ _ _ ⟨2024, 1, 2⟩ (by decide) rfl rfl
    rfl

/-- C10: the duplicate-detection marker scan only recognises purely numeric
ids — for an entry whose id contains any non-digit character the id is never
in the recovered marker-id set, whatever the recorded summaries are, so with
duplicate prevention enabled the entry is not skipped and is logged again on
a repeated live run (its `addTimeSpent` call is issued and `synced_entries`
increments). -/
theorem nonnumeric_id_escapes_dedup (cfg : SyncConfig) (env : Env)
    (iss : Issue) (e : Entry) (dt : PyDate)
    (hnd : ∃ c ∈ e.id.data, isPyDigit c = false)
    (hp : cfg.prevent_duplicates = true)
    (hdry : cfg.dry_run = false)
    (hparse : env.parseStart e.start = some dt)
    (hadd : env.addTimeResult e = true) :
    e.id ∉ existingTogglIds cfg env ∧
    (syncEntriesToIssue cfg env iss [e] Stats.init).1.synced_entries = 1 ∧
    MutCall.addTimeSpent iss.iid e.duration dt (buildLogDescription cfg e) ∈
      (syncEntriesToIssue cfg env iss [e] Stats.init).2 := by
  have hnotmem : e.id ∉ existingTogglIds cfg env := by
    intro hmem
    unfold existingTogglIds at hmem
    rw [if_pos hp] at hmem
    cases hres : env.getEntriesResult with
    | none => rw [hres] at hmem; cases hmem
    | some summaries =>
      rw [hres] at hmem
      rcases List.mem_filterMap.mp hmem with ⟨smm, _, hex⟩
      unfold extractToggl at hex
      rcases Option.map_eq_some'.mp hex with ⟨cs, hscan, hmk⟩
      have hdig := (scanMarker_digits smm.data cs hscan).2
      rcases hnd with ⟨c, hcmem, hcf⟩
      rw [← hmk] at hcmem
      have := hdig c hcmem
      rw [hcf] at this
      cases this
  have hloop : syncEntriesLoop cfg env iss.iid (existingTogglIds cfg env)
      [e] Stats.init 0 =
      ({Stats.init with synced_entries := 1}, e.duration,
       [MutCall.addTimeSpent iss.iid e.duration dt
          (buildLogDescription cfg e)]) := by
    rw [syncEntriesLoop, if_neg (fun h => hnotmem h.2)]
    simp only [hparse, hdry, hadd, Bool.false_eq_true, if_false, if_true]
    rw [syncEntriesLoop]
    norm_num [Stats.init]
  unfold syncEntriesToIssue
  rcases hL : syncEntriesLoop cfg env iss.iid (existingTogglIds cfg env)
      [e] Stats.init 0 with ⟨s1, total, calls1⟩
  rw [hL] at hloop
  have hs1 : s1.synced_entries = 1 :=
    congrArg (fun p : Stats × Int × List MutCall => p.1.synced_entries) hloop
  have hc1 : calls1 =
      [MutCall.addTimeSpent iss.iid e.duration dt
        (buildLogDescription cfg e)] :=
    congrArg (fun p : Stats × Int × List MutCall => p.2.2) hloop
  have hpres := estimateStep_preserves cfg env iss.iid s1 total
  rcases hE : estimateStep cfg env iss.iid s1 total with ⟨s2, calls2⟩
  rw [hE] at hpres
  have hp1 : s2.synced_entries = s1.synced_entries := hpres.1
  refine ⟨hnotmem, ?_, ?_⟩
  · simp only [hE]
    rw [hp1, hs1]
  · simp only [hE]
    rw [hc1]
    exact List.mem_append.mpr (Or.inl (List.mem_append.mpr
      (Or.inl (List.mem_cons_self _ _))))

/-- C10 witness: a concrete entry with the non-numeric id `"12a"` is logged
again although its marker text is present in the recorded summary. -/
theorem nonnumeric_id_escapes_dedup_witness :
    (⟨"12a", "fix", "2024-01-02T10:00:00Z", 900, 900, true, []⟩ : Entry).id ∉
      existingTogglIds ⟨false, true, true, false, 0, 5, []⟩
        ⟨fun _ => some ⟨2024, 1, 2⟩, some ["[TogglID:12a]"], fun _ => true, 0,
         true, fun _ => none, none⟩ ∧
    (syncEntriesToIssue ⟨false, true, true, false, 0, 5, []⟩
      ⟨fun _ => some ⟨2024, 1, 2⟩, some ["[TogglID:12a]"], fun _ => true, 0,
       true, fun _ => none, none⟩
      ⟨42⟩ [⟨"12a", "fix", "2024-01-02T10:00:00Z", 900, 900, true, []⟩]
      Stats.init).1.synced_entries = 1 :=
  ⟨(nonnumeric_id_escapes_dedup _ _ ⟨42⟩ _ ⟨2024, 1, 2⟩ (by decide) rfl rfl
      rfl rfl).1,
   (nonnumeric_id_escapes_dedup _ _ ⟨42⟩ _ ⟨2024, 1, 2⟩ (by decide) rfl rfl
      rfl rfl).2.1⟩

end SyncToggl
